import Mathlib

/-!
Shallow embedding of the MatrixGrid canvas component
(`src/components/CanvasGrid.tsx` and `src/App.tsx`).

Coordinates, scale factors and wheel deltas are modelled as rationals (`ℚ`),
row/column indices and pointer ids as integers (`ℤ`).  The component's React
state (`scale`, `offset`, `hoveredCell`, `selectedCell`, the `panState` ref and
the pointer-capture status of the canvas element) is collected in `GridState`;
the construction-time props (`rows`, `cols`, `cellSize`) together with the
canvas bounding rectangle's origin (`getBoundingClientRect().left/top`) form
`Config`.  Each event handler of the component becomes a pure function from a
state and an event to a new state, paired with the arguments of any callback
(`onHover` / `onSelect`) it invokes.

React closure semantics: the `useCallback` handlers close over the state
variables of the render in which they were created; `setScale`/`setOffset`
calls inside a handler do not change those closed-over values within the same
event.  In particular `handlePointerMove` hit-tests with the offset from the
current render even when it has just issued a pan update — the embedding
reproduces this by passing the pre-event `s.offset` to
`getCellFromClientPoint` while the returned state carries the panned offset.
-/

namespace MatrixGrid

/-- A 2-D point with rational coordinates (client or surface pixels). -/
structure Point where
  x : ℚ
  y : ℚ
deriving DecidableEq

/-- A grid cell, `{row, col}` as in the source. -/
structure Cell where
  row : ℤ
  col : ℤ
deriving DecidableEq

/-- `MIN_SCALE = 0.25` from CanvasGrid.tsx line 22. -/
def MIN_SCALE : ℚ := 1 / 4

/-- `MAX_SCALE = 4` from CanvasGrid.tsx line 23. -/
def MAX_SCALE : ℚ := 4

/-- `clamp(value, min, max) = Math.min(Math.max(value, min), max)`
(CanvasGrid.tsx lines 25–26). -/
def clamp (value mn mx : ℚ) : ℚ :=
  Min.min (Max.max value mn) mx

/-- Construction-time props (`rows`, `cols`, `cellSize`) plus the canvas
bounding rectangle origin reported by `getBoundingClientRect()`.  All are
immutable during a session. -/
structure Config where
  rows : ℤ
  cols : ℤ
  cellSize : ℚ
  rectLeft : ℚ
  rectTop : ℚ
deriving DecidableEq

/-- The `panState` ref: `{dragging, pointerId, start, origin}`
(CanvasGrid.tsx lines 42–47). -/
structure PanState where
  dragging : Bool
  pointerId : ℤ
  start : Point
  origin : Point
deriving DecidableEq

/-- The component state: `scale`, `offset`, `hoveredCell`, `selectedCell`,
the `panState` ref, and which pointer (if any) the canvas has captured via
`setPointerCapture` / `releasePointerCapture`. -/
structure GridState where
  scale : ℚ
  offset : Point
  hoveredCell : Option Cell
  selectedCell : Option Cell
  pan : PanState
  capturedPointer : Option ℤ
deriving DecidableEq

/-- Initial state: `scale = 1`, `offset = {0,0}`, nothing hovered or
selected, no drag in progress, no pointer captured
(CanvasGrid.tsx lines 37–47). -/
def initState : GridState where
  scale := 1
  offset := ⟨0, 0⟩
  hoveredCell := none
  selectedCell := none
  pan := { dragging := false, pointerId := -1, start := ⟨0, 0⟩, origin := ⟨0, 0⟩ }
  capturedPointer := none

/-- A pointer event: `pointerId`, `clientX`, `clientY`. -/
structure PointerEvt where
  pointerId : ℤ
  clientX : ℚ
  clientY : ℚ
deriving DecidableEq

/-- A wheel event: `clientX`, `clientY`, `deltaY`. -/
structure WheelEvt where
  clientX : ℚ
  clientY : ℚ
  deltaY : ℚ
deriving DecidableEq

/-- `getCellFromClientPoint` (CanvasGrid.tsx lines 82–95), for a mounted
canvas whose bounding rectangle starts at `(cfg.rectLeft, cfg.rectTop)`:
transform the client point to grid space by undoing the offset/scale
transform, floor-divide by `cellSize`, and return `none` when the resulting
`row`/`col` is outside `[0, rows) × [0, cols)`. -/
def getCellFromClientPoint (cfg : Config) (offset : Point) (scale : ℚ)
    (clientX clientY : ℚ) : Option Cell :=
  let x := (clientX - cfg.rectLeft - offset.x) / scale
  let y := (clientY - cfg.rectTop - offset.y) / scale
  let col := ⌊x / cfg.cellSize⌋
  let row := ⌊y / cfg.cellSize⌋
  if row < 0 ∨ col < 0 ∨ row ≥ cfg.rows ∨ col ≥ cfg.cols then none
  else some ⟨row, col⟩

/-- `handlePointerDown` (CanvasGrid.tsx lines 172–184): record the pointer
id, the client start point and the current offset as gesture origin, and
capture the pointer. -/
def handlePointerDown (s : GridState) (evt : PointerEvt) : GridState :=
  { s with
    pan := { dragging := true
             pointerId := evt.pointerId
             start := ⟨evt.clientX, evt.clientY⟩
             origin := s.offset }
    capturedPointer := some evt.pointerId }

/-- The pair passed to `onHover` for a hit-test result: the cell's
`(row, col)` or the `(-1, -1)` sentinel (CanvasGrid.tsx line 199). -/
def hoverArgs : Option Cell → ℤ × ℤ
  | some c => (c.row, c.col)
  | none => (-1, -1)

/-- `handlePointerMove` (CanvasGrid.tsx lines 186–202): if a drag with a
matching pointer id is active, set `offset = origin + (client − start)`;
then hit-test the event point and report it via `onHover`.  The hit test
uses the offset closed over from the current render — the value from before
this event's own pan update.  Returns the new state and the `onHover`
arguments. -/
def handlePointerMove (cfg : Config) (s : GridState) (evt : PointerEvt) :
    GridState × ℤ × ℤ :=
  let s1 :=
    if s.pan.dragging ∧ s.pan.pointerId = evt.pointerId then
      let dx := evt.clientX - s.pan.start.x
      let dy := evt.clientY - s.pan.start.y
      { s with offset := ⟨s.pan.origin.x + dx, s.pan.origin.y + dy⟩ }
    else s
  let cell := getCellFromClientPoint cfg s.offset s.scale evt.clientX evt.clientY
  ({ s1 with hoveredCell := cell }, hoverArgs cell)

/-- `handlePointerUp` (CanvasGrid.tsx lines 204–209): clear `dragging` only
when the pointer id matches the recorded gesture; release pointer capture
for the event's pointer id unconditionally. -/
def handlePointerUp (s : GridState) (evt : PointerEvt) : GridState :=
  { s with
    pan := if s.pan.pointerId = evt.pointerId then { s.pan with dragging := false } else s.pan
    capturedPointer :=
      if s.capturedPointer = some evt.pointerId then none else s.capturedPointer }

/-- `handlePointerLeave` (CanvasGrid.tsx lines 211–214): clear the hovered
cell and report `(-1, -1)` via `onHover`.  It touches neither the pan state
nor the pointer capture. -/
def handlePointerLeave (s : GridState) : GridState × ℤ × ℤ :=
  ({ s with hoveredCell := none }, (-1, -1))

/-- `handleClick` (CanvasGrid.tsx lines 216–225): hit-test the click point;
on a hit, store it as `selectedCell` and invoke `onSelect(row, col)`;
otherwise change nothing and invoke nothing.  Returns the new state and the
`onSelect` arguments (`none` = not invoked). -/
def handleClick (cfg : Config) (s : GridState) (clientX clientY : ℚ) :
    GridState × Option (ℤ × ℤ) :=
  match getCellFromClientPoint cfg s.offset s.scale clientX clientY with
  | some cell => ({ s with selectedCell := some cell }, some (cell.row, cell.col))
  | none => (s, none)

/-- `handleWheel` (CanvasGrid.tsx lines 227–248): compute
`nextScale = clamp(prevScale − deltaY * 0.001, MIN_SCALE, MAX_SCALE)`; if it
equals the previous scale, change nothing; otherwise rescale the offset
about the cursor position relative to the canvas rectangle and adopt the new
scale. -/
def handleWheel (cfg : Config) (s : GridState) (evt : WheelEvt) : GridState :=
  let mouseX := evt.clientX - cfg.rectLeft
  let mouseY := evt.clientY - cfg.rectTop
  let nextScale := clamp (s.scale - evt.deltaY * (1 / 1000)) MIN_SCALE MAX_SCALE
  if nextScale = s.scale then s
  else
    let ratio := nextScale / s.scale
    { s with
      scale := nextScale
      offset := ⟨mouseX - (mouseX - s.offset.x) * ratio,
                 mouseY - (mouseY - s.offset.y) * ratio⟩ }

/-- One input event of the component. -/
inductive Event where
  | pointerDown (evt : PointerEvt)
  | pointerMove (evt : PointerEvt)
  | pointerUp (evt : PointerEvt)
  | pointerLeave
  | click (clientX clientY : ℚ)
  | wheel (evt : WheelEvt)
deriving DecidableEq

/-- Process one event, discarding callback outputs. -/
def step (cfg : Config) (s : GridState) : Event → GridState
  | .pointerDown evt => handlePointerDown s evt
  | .pointerMove evt => (handlePointerMove cfg s evt).1
  | .pointerUp evt => handlePointerUp s evt
  | .pointerLeave => (handlePointerLeave s).1
  | .click cx cy => (handleClick cfg s cx cy).1
  | .wheel evt => handleWheel cfg s evt

/-- Run an event sequence from the initial state. -/
def run (cfg : Config) (events : List Event) : GridState :=
  events.foldl (step cfg) initState

/-- Client point to grid space under a view `(offset, scale)`: the
transformation performed by `getCellFromClientPoint` before flooring. -/
def clientToGrid (cfg : Config) (offset : Point) (scale : ℚ) (p : Point) : Point :=
  ⟨(p.x - cfg.rectLeft - offset.x) / scale, (p.y - cfg.rectTop - offset.y) / scale⟩

/-- Grid space back to client space: the renderer's
`translate(offset)` then `scale(scale)` transform (CanvasGrid.tsx lines
107–108), shifted by the canvas rectangle origin. -/
def gridToClient (cfg : Config) (offset : Point) (scale : ℚ) (g : Point) : Point :=
  ⟨g.x * scale + offset.x + cfg.rectLeft, g.y * scale + offset.y + cfg.rectTop⟩

/-- A stroked rectangle: stroke color, line width, and rectangle as passed
to `strokeRect`. -/
structure StrokeSpec where
  color : String
  lineWidth : ℚ
  x : ℚ
  y : ℚ
  w : ℚ
  h : ℚ
deriving DecidableEq

/-- The selection outline drawn by the render effect (CanvasGrid.tsx lines
149–158): accent color `#ff9800`, line width `2/scale`, rectangle
`(col*cellSize + (1/scale)*0.5, row*cellSize + (1/scale)*0.5,
cellSize − 1/scale, cellSize − 1/scale)`. -/
def selectionStroke (cellSize scale : ℚ) (cell : Cell) : StrokeSpec where
  color := "#ff9800"
  lineWidth := 2 / scale
  x := cell.col * cellSize + (1 / scale) * (1 / 2)
  y := cell.row * cellSize + (1 / scale) * (1 / 2)
  w := cellSize - 1 / scale
  h := cellSize - 1 / scale

/-- The selection outline as the claim reads it: inset from the cell
rectangle by half the `2/scale` line width — that is, by `1/scale` — on each
side.  Stated for comparison with `selectionStroke`, which embeds the
source. -/
def selectionStrokeClaimed (cellSize scale : ℚ) (cell : Cell) : StrokeSpec where
  color := "#ff9800"
  lineWidth := 2 / scale
  x := cell.col * cellSize + 1 / scale
  y := cell.row * cellSize + 1 / scale
  w := cellSize - 2 * (1 / scale)
  h := cellSize - 2 * (1 / scale)

/-- The concrete configuration from `App.tsx` lines 22–30 (`rows = 200`,
`cols = 200`, `cellSize = 32`) with the canvas rectangle at the client
origin. -/
def cfg0 : Config where
  rows := 200
  cols := 200
  cellSize := 32
  rectLeft := 0
  rectTop := 0

/-- The scale-bound invariant `MIN_SCALE ≤ scale ≤ MAX_SCALE` from the
spec's data model. -/
def scaleInBounds (s : GridState) : Prop :=
  MIN_SCALE ≤ s.scale ∧ s.scale ≤ MAX_SCALE

/-- A concrete state with an active drag (pointer id 1, gesture origin and
start at the client origin), as produced by a pointer-down at `(0,0)` with
pointer id 1 in the initial state. -/
def dragState : GridState :=
  { initState with
    pan := { dragging := true, pointerId := 1, start := ⟨0, 0⟩, origin := ⟨0, 0⟩ }
    capturedPointer := some 1 }

/-- Unfolding lemma for `handleWheel` with the branches written out. -/
theorem handleWheel_eq (cfg : Config) (s : GridState) (evt : WheelEvt) :
    handleWheel cfg s evt =
      if clamp (s.scale - evt.deltaY * (1 / 1000)) MIN_SCALE MAX_SCALE = s.scale then s
      else
        { s with
          scale := clamp (s.scale - evt.deltaY * (1 / 1000)) MIN_SCALE MAX_SCALE
          offset := ⟨(evt.clientX - cfg.rectLeft) -
              ((evt.clientX - cfg.rectLeft) - s.offset.x) *
                (clamp (s.scale - evt.deltaY * (1 / 1000)) MIN_SCALE MAX_SCALE / s.scale),
            (evt.clientY - cfg.rectTop) -
              ((evt.clientY - cfg.rectTop) - s.offset.y) *
                (clamp (s.scale - evt.deltaY * (1 / 1000)) MIN_SCALE MAX_SCALE / s.scale)⟩ } :=
  rfl

/-- Clamping to `[MIN_SCALE, MAX_SCALE]` lands in `[MIN_SCALE, MAX_SCALE]`. -/
theorem clamp_scale_mem (v : ℚ) :
    MIN_SCALE ≤ clamp v MIN_SCALE MAX_SCALE ∧ clamp v MIN_SCALE MAX_SCALE ≤ MAX_SCALE := by
  unfold clamp
  exact ⟨le_min (le_max_right _ _) (by norm_num [MIN_SCALE, MAX_SCALE]), min_le_right _ _⟩

/-- `handlePointerMove` never changes the scale. -/
theorem handlePointerMove_scale (cfg : Config) (s : GridState) (evt : PointerEvt) :
    (handlePointerMove cfg s evt).1.scale = s.scale := by
  unfold handlePointerMove
  by_cases h : s.pan.dragging ∧ s.pan.pointerId = evt.pointerId <;> simp [h]

/-- `handleClick` never changes the scale. -/
theorem handleClick_scale (cfg : Config) (s : GridState) (cx cy : ℚ) :
    (handleClick cfg s cx cy).1.scale = s.scale := by
  unfold handleClick
  cases getCellFromClientPoint cfg s.offset s.scale cx cy <;> rfl

/-- A single `step` preserves the scale-bound invariant. -/
theorem step_scaleInBounds (cfg : Config) (s : GridState) (e : Event)
    (h : scaleInBounds s) : scaleInBounds (step cfg s e) := by
  cases e with
  | pointerDown evt => exact h
  | pointerMove evt =>
      unfold scaleInBounds at h ⊢
      show MIN_SCALE ≤ (handlePointerMove cfg s evt).1.scale ∧
        (handlePointerMove cfg s evt).1.scale ≤ MAX_SCALE
      rw [handlePointerMove_scale]
      exact h
  | pointerUp evt => exact h
  | pointerLeave => exact h
  | click cx cy =>
      unfold scaleInBounds at h ⊢
      show MIN_SCALE ≤ (handleClick cfg s cx cy).1.scale ∧
        (handleClick cfg s cx cy).1.scale ≤ MAX_SCALE
      rw [handleClick_scale]
      exact h
  | wheel evt =>
      unfold scaleInBounds at h ⊢
      show MIN_SCALE ≤ (handleWheel cfg s evt).scale ∧
        (handleWheel cfg s evt).scale ≤ MAX_SCALE
      rw [handleWheel_eq]
      by_cases hb : clamp (s.scale - evt.deltaY * (1 / 1000)) MIN_SCALE MAX_SCALE = s.scale
      · rw [if_pos hb]; exact h
      · rw [if_neg hb]; exact clamp_scale_mem _

/-- Folding `step` over any event list preserves the scale-bound
invariant. -/
theorem foldl_scaleInBounds (cfg : Config) (l : List Event) (s : GridState)
    (h : scaleInBounds s) : scaleInBounds (l.foldl (step cfg) s) := by
  induction l generalizing s with
  | nil => exact h
  | cons e t ih => exact ih _ (step_scaleInBounds cfg s e h)

/-- C2.  Scale bound invariant: from the initial state `scale = 1`, after
any sequence of events (wheel events with arbitrary `deltaY` included) the
scale satisfies `MIN_SCALE ≤ scale ≤ MAX_SCALE`, i.e. `0.25 ≤ scale ≤ 4`;
and no event other than a wheel event changes the scale. -/
theorem scale_always_clamped (cfg : Config) (events : List Event) :
    scaleInBounds (run cfg events) ∧
    ∀ (s : GridState) (e : Event), (∀ evt : WheelEvt, e ≠ Event.wheel evt) →
      (step cfg s e).scale = s.scale := by
  constructor
  · exact foldl_scaleInBounds cfg events initState (by norm_num [scaleInBounds, initState, MIN_SCALE, MAX_SCALE])
  · intro s e he
    cases e with
    | pointerDown evt => rfl
    | pointerMove evt => exact handlePointerMove_scale cfg s evt
    | pointerUp evt => rfl
    | pointerLeave => rfl
    | click cx cy => exact handleClick_scale cfg s cx cy
    | wheel evt => exact absurd rfl (he evt)

/-- Witness for C2 at the `App.tsx` configuration: a strong zoom-in event
keeps the scale in bounds, and a pointer-leave leaves the scale of the
initial state unchanged. -/
theorem scale_always_clamped_witness :
    scaleInBounds (run cfg0 [Event.wheel ⟨100, 100, -1000⟩]) ∧
    (step cfg0 initState Event.pointerLeave).scale = initState.scale :=
  ⟨(scale_always_clamped cfg0 [Event.wheel ⟨100, 100, -1000⟩]).1,
   (scale_always_clamped cfg0 []).2 initState Event.pointerLeave
     (fun evt h => Event.noConfusion h)⟩

/-- C1.  Zoom about cursor: for any wheel event at client point
`(clientX, clientY)` and any pre-state whose scale lies in
`[MIN_SCALE, MAX_SCALE]`, if the handler changes the scale then the
grid-space point that mapped to the event point under the old
`(offset, scale)` maps to the same client point under the new ones, and the
new offset is exactly `cursor − (cursor − oldOffset) * (nextScale/prevScale)`
per axis, where `cursor` is the event point relative to the canvas
rectangle. -/
theorem zoom_about_cursor (cfg : Config) (s : GridState) (evt : WheelEvt)
    (hlo : MIN_SCALE ≤ s.scale) (hhi : s.scale ≤ MAX_SCALE)
    (hchange : (handleWheel cfg s evt).scale ≠ s.scale) :
    gridToClient cfg (handleWheel cfg s evt).offset (handleWheel cfg s evt).scale
        (clientToGrid cfg s.offset s.scale ⟨evt.clientX, evt.clientY⟩) =
      ⟨evt.clientX, evt.clientY⟩ ∧
    (handleWheel cfg s evt).offset =
      ⟨(evt.clientX - cfg.rectLeft) -
          ((evt.clientX - cfg.rectLeft) - s.offset.x) *
            ((handleWheel cfg s evt).scale / s.scale),
        (evt.clientY - cfg.rectTop) -
          ((evt.clientY - cfg.rectTop) - s.offset.y) *
            ((handleWheel cfg s evt).scale / s.scale)⟩ := by
  have hs : s.scale ≠ 0 :=
    ne_of_gt (lt_of_lt_of_le (by norm_num [MIN_SCALE]) hlo)
  rw [handleWheel_eq] at hchange ⊢
  by_cases h : clamp (s.scale - evt.deltaY * (1 / 1000)) MIN_SCALE MAX_SCALE = s.scale
  · rw [if_pos h] at hchange
    exact absurd rfl hchange
  · rw [if_neg h]
    refine ⟨?_, rfl⟩
    simp only [gridToClient, clientToGrid, Point.mk.injEq]
    constructor <;> (field_simp; try ring)

/-- Witness for C1: the spec's own scenario — wheel `deltaY = −1000` at
client `(100,100)` from the initial state doubles the scale and keeps the
grid point under the cursor fixed. -/
theorem zoom_about_cursor_witness :
    gridToClient cfg0 (handleWheel cfg0 initState ⟨100, 100, -1000⟩).offset
        (handleWheel cfg0 initState ⟨100, 100, -1000⟩).scale
        (clientToGrid cfg0 initState.offset initState.scale ⟨100, 100⟩) =
      ⟨100, 100⟩ := by
  have hch : (handleWheel cfg0 initState ⟨100, 100, -1000⟩).scale ≠ initState.scale := by
    rw [handleWheel_eq]
    norm_num [clamp, MIN_SCALE, MAX_SCALE, initState]
  exact (zoom_about_cursor cfg0 initState ⟨100, 100, -1000⟩
    (by norm_num [initState, MIN_SCALE]) (by norm_num [initState, MAX_SCALE]) hch).1

/-- Closed form of `getCellFromClientPoint`: the floor-divided coordinates,
returned exactly when both land inside `[0, rows) × [0, cols)`. -/
theorem getCell_eq (cfg : Config) (offset : Point) (scale cx cy : ℚ) :
    getCellFromClientPoint cfg offset scale cx cy =
      if 0 ≤ ⌊(cy - cfg.rectTop - offset.y) / scale / cfg.cellSize⌋ ∧
          ⌊(cy - cfg.rectTop - offset.y) / scale / cfg.cellSize⌋ < cfg.rows ∧
          0 ≤ ⌊(cx - cfg.rectLeft - offset.x) / scale / cfg.cellSize⌋ ∧
          ⌊(cx - cfg.rectLeft - offset.x) / scale / cfg.cellSize⌋ < cfg.cols then
        some ⟨⌊(cy - cfg.rectTop - offset.y) / scale / cfg.cellSize⌋,
              ⌊(cx - cfg.rectLeft - offset.x) / scale / cfg.cellSize⌋⟩
      else none := by
  simp only [getCellFromClientPoint]
  split_ifs with h1 h2 <;> first | rfl | (exfalso; omega)

/-- C3.  Hit-test correctness: `getCellFromClientPoint` floors the
grid-space coordinates `(client − rectOrigin − offset)/scale` by `cellSize`
and returns no cell exactly when the resulting row or column is outside
`[0, rows) × [0, cols)`; and under the identity view (`offset = (0,0)`,
`scale = 1`, canvas rectangle at the origin) every point inside the grid
extent yields `(row, col) = (⌊y/cellSize⌋, ⌊x/cellSize⌋)`. -/
theorem hit_test_correct (cfg : Config) (hcell : 0 < cfg.cellSize) :
    (∀ (offset : Point) (scale cx cy : ℚ),
      getCellFromClientPoint cfg offset scale cx cy =
        if 0 ≤ ⌊(cy - cfg.rectTop - offset.y) / scale / cfg.cellSize⌋ ∧
            ⌊(cy - cfg.rectTop - offset.y) / scale / cfg.cellSize⌋ < cfg.rows ∧
            0 ≤ ⌊(cx - cfg.rectLeft - offset.x) / scale / cfg.cellSize⌋ ∧
            ⌊(cx - cfg.rectLeft - offset.x) / scale / cfg.cellSize⌋ < cfg.cols then
          some ⟨⌊(cy - cfg.rectTop - offset.y) / scale / cfg.cellSize⌋,
                ⌊(cx - cfg.rectLeft - offset.x) / scale / cfg.cellSize⌋⟩
        else none) ∧
    (cfg.rectLeft = 0 → cfg.rectTop = 0 →
      ∀ cx cy : ℚ, 0 ≤ cx → cx < cfg.cols * cfg.cellSize →
        0 ≤ cy → cy < cfg.rows * cfg.cellSize →
        getCellFromClientPoint cfg ⟨0, 0⟩ 1 cx cy =
          some ⟨⌊cy / cfg.cellSize⌋, ⌊cx / cfg.cellSize⌋⟩) := by
  constructor
  · intro offset scale cx cy
    exact getCell_eq cfg offset scale cx cy
  · intro hleft htop cx cy hx0 hxlt hy0 hylt
    rw [getCell_eq, hleft, htop]
    have hxs : (cx - 0 - (Point.mk 0 0).x) / 1 = cx := by norm_num
    have hys : (cy - 0 - (Point.mk 0 0).y) / 1 = cy := by norm_num
    rw [hxs, hys]
    rw [if_pos]
    refine ⟨Int.floor_nonneg.2 (div_nonneg hy0 hcell.le), ?_, ?_, ?_⟩
    · exact Int.floor_lt.2 ((div_lt_iff hcell).2 (by push_cast; linarith))
    · exact Int.floor_nonneg.2 (div_nonneg hx0 hcell.le)
    · exact Int.floor_lt.2 ((div_lt_iff hcell).2 (by push_cast; linarith))

/-- Witness for C3 at the `App.tsx` configuration: the identity-view hit
test at surface point `(64, 96)` yields cell `(row 3, col 2)`. -/
theorem hit_test_correct_witness :
    getCellFromClientPoint cfg0 ⟨0, 0⟩ 1 64 96 = some ⟨3, 2⟩ := by
  have h := (hit_test_correct cfg0 (by norm_num [cfg0])).2 rfl rfl 64 96
    (by norm_num) (by norm_num [cfg0]) (by norm_num) (by norm_num [cfg0])
  rw [h]
  norm_num [cfg0]

/-- C4.  Pan translation: during an active drag with matching pointer id, a
pointer-move sets `offset = origin + (client − start)` per axis; the scale
is unchanged and does not enter the offset computation. -/
theorem pan_translation (cfg : Config) (s : GridState) (evt : PointerEvt)
    (hdrag : s.pan.dragging = true) (hid : s.pan.pointerId = evt.pointerId) :
    (handlePointerMove cfg s evt).1.offset =
      ⟨s.pan.origin.x + (evt.clientX - s.pan.start.x),
       s.pan.origin.y + (evt.clientY - s.pan.start.y)⟩ ∧
    (handlePointerMove cfg s evt).1.scale = s.scale := by
  unfold handlePointerMove
  simp [hdrag, hid]

/-- Witness for C4: in `dragState` a pointer-move of pointer 1 to client
`(5, 7)` translates the offset by `(5, 7)`. -/
theorem pan_translation_witness :
    (handlePointerMove cfg0 dragState ⟨1, 5, 7⟩).1.offset =
      ⟨dragState.pan.origin.x + (5 - dragState.pan.start.x),
       dragState.pan.origin.y + (7 - dragState.pan.start.y)⟩ ∧
    (handlePointerMove cfg0 dragState ⟨1, 5, 7⟩).1.scale = dragState.scale :=
  pan_translation cfg0 dragState ⟨1, 5, 7⟩ rfl rfl

/-- C5.  `onSelect` is invoked exactly on in-grid clicks: a click invokes
`onSelect (r, c)` precisely when the hit test maps the click point to the
cell `⟨r, c⟩` (inside `[0, rows) × [0, cols)`); when the hit test misses the
grid, nothing is invoked and the state is unchanged.  Concretely, with the
`App.tsx` configuration (`rows = cols = 200`, `cellSize = 32`) and the
identity view, a click at surface point `(64, 96)` selects cell
`(row 3, col 2)` and invokes `onSelect (3, 2)` — once, since one click event
produces a single optional invocation. -/
theorem select_iff_in_grid (cfg : Config) (s : GridState) (cx cy : ℚ) :
    ((∀ r c : ℤ, (handleClick cfg s cx cy).2 = some (r, c) ↔
        getCellFromClientPoint cfg s.offset s.scale cx cy = some ⟨r, c⟩) ∧
     (getCellFromClientPoint cfg s.offset s.scale cx cy = none →
        (handleClick cfg s cx cy).2 = none ∧ (handleClick cfg s cx cy).1 = s)) ∧
    ((handleClick cfg0 initState 64 96).1.selectedCell = some ⟨3, 2⟩ ∧
     (handleClick cfg0 initState 64 96).2 = some (3, 2)) := by
  have hconc : getCellFromClientPoint cfg0 initState.offset initState.scale 64 96 =
      some ⟨3, 2⟩ := by
    norm_num [getCellFromClientPoint, cfg0, initState]
  refine ⟨⟨fun r c => ?_, fun hnone => ?_⟩, ?_⟩
  · unfold handleClick
    cases hc : getCellFromClientPoint cfg s.offset s.scale cx cy with
    | none => simp
    | some cell => cases cell; simp
  · unfold handleClick
    rw [hnone]
    exact ⟨rfl, rfl⟩
  · unfold handleClick
    rw [hconc]
    exact ⟨rfl, rfl⟩

/-- Witness for C5: a click at client `(-10, -10)` under the identity view
maps to no cell, invokes nothing and leaves the state unchanged. -/
theorem select_iff_in_grid_witness :
    (handleClick cfg0 initState (-10) (-10)).2 = none ∧
    (handleClick cfg0 initState (-10) (-10)).1 = initState := by
  apply (select_iff_in_grid cfg0 initState (-10) (-10)).1.2
  norm_num [getCellFromClientPoint, cfg0, initState]

/-- C6.  `onHover` sentinel: every pointer-move invokes `onHover` with the
hit-tested cell's `(row, col)` when the point maps to a cell and with
`(-1, -1)` when it maps to no cell, storing the same result as the hovered
cell; a pointer-leave invokes `onHover (-1, -1)` and clears the hovered
cell. -/
theorem hover_sentinel (cfg : Config) (s : GridState) (evt : PointerEvt) :
    ((handlePointerMove cfg s evt).2 =
       hoverArgs (getCellFromClientPoint cfg s.offset s.scale evt.clientX evt.clientY)) ∧
    ((handlePointerMove cfg s evt).1.hoveredCell =
       getCellFromClientPoint cfg s.offset s.scale evt.clientX evt.clientY) ∧
    (∀ c : Cell,
       getCellFromClientPoint cfg s.offset s.scale evt.clientX evt.clientY = some c →
       (handlePointerMove cfg s evt).2 = (c.row, c.col)) ∧
    (getCellFromClientPoint cfg s.offset s.scale evt.clientX evt.clientY = none →
       (handlePointerMove cfg s evt).2 = (-1, -1)) ∧
    (handlePointerLeave s).2 = (-1, -1) ∧
    (handlePointerLeave s).1.hoveredCell = none := by
  unfold handlePointerMove handlePointerLeave
  refine ⟨by simp, by simp, fun c hc => ?_, fun hn => ?_, rfl, rfl⟩
  · simp [hc, hoverArgs]
  · simp [hn, hoverArgs]

/-- Witness for C6: the pointer-move at `(64, 96)` in the initial view
reports cell `(3, 2)`, and a pointer-leave reports `(-1, -1)`. -/
theorem hover_sentinel_witness :
    (handlePointerMove cfg0 initState ⟨1, 64, 96⟩).2 = ((3 : ℤ), (2 : ℤ)) ∧
    (handlePointerLeave initState).2 = (-1, -1) := by
  constructor
  · apply (hover_sentinel cfg0 initState ⟨1, 64, 96⟩).2.2.1 ⟨3, 2⟩
    norm_num [getCellFromClientPoint, cfg0, initState]
  · exact (hover_sentinel cfg0 initState ⟨1, 64, 96⟩).2.2.2.2.1

/-- C7 counterexample.  The claim says a pointer-leave clears the dragging
flag and releases pointer capture; in the code `handlePointerLeave` only
clears the hover.  In the concrete drag state, after a pointer-leave the
gesture is still dragging, the pointer is still captured, and a subsequent
pointer-move still pans the view (the offset moves from `(0,0)` to
`(5,7)`). -/
theorem pan_end_counterexample :
    (handlePointerLeave dragState).1.pan.dragging = true ∧
    (handlePointerLeave dragState).1.capturedPointer = some 1 ∧
    (handlePointerMove cfg0 (handlePointerLeave dragState).1 ⟨1, 5, 7⟩).1.offset = ⟨5, 7⟩ ∧
    (handlePointerMove cfg0 (handlePointerLeave dragState).1 ⟨1, 5, 7⟩).1.offset ≠
      (handlePointerLeave dragState).1.offset := by
  refine ⟨rfl, rfl, ?_, ?_⟩
  · unfold handlePointerMove handlePointerLeave dragState initState
    norm_num
  · unfold handlePointerMove handlePointerLeave dragState initState
    norm_num [Point.mk.injEq]

/-- C7 (amended).  Pan end: a pointer-up whose pointer id matches the
active gesture clears the dragging flag, and releases pointer capture when
that pointer was the captured one, so no subsequent pointer-move changes
the offset until a new pointer-down; a pointer-leave leaves the pan gesture
and the pointer capture untouched (it only clears the hover). -/
theorem pan_end (s : GridState) (evt : PointerEvt)
    (hid : s.pan.pointerId = evt.pointerId) :
    (handlePointerUp s evt).pan.dragging = false ∧
    (s.capturedPointer = some evt.pointerId →
      (handlePointerUp s evt).capturedPointer = none) ∧
    (∀ (cfg : Config) (evt2 : PointerEvt),
      (handlePointerMove cfg (handlePointerUp s evt) evt2).1.offset =
        (handlePointerUp s evt).offset) ∧
    (handlePointerLeave s).1.pan = s.pan ∧
    (handlePointerLeave s).1.capturedPointer = s.capturedPointer := by
  refine ⟨?_, ?_, ?_, rfl, rfl⟩
  · unfold handlePointerUp
    simp [hid]
  · intro hcap
    unfold handlePointerUp
    simp [hcap]
  · intro cfg evt2
    have hdrag : (handlePointerUp s evt).pan.dragging = false := by
      unfold handlePointerUp
      simp [hid]
    unfold handlePointerMove
    simp [hdrag]

/-- Witness for C7: in the concrete drag state, a matching pointer-up ends
the drag, releases the capture, and a following pointer-move no longer
pans. -/
theorem pan_end_witness :
    (handlePointerUp dragState ⟨1, 0, 0⟩).pan.dragging = false ∧
    (handlePointerUp dragState ⟨1, 0, 0⟩).capturedPointer = none ∧
    (handlePointerMove cfg0 (handlePointerUp dragState ⟨1, 0, 0⟩) ⟨1, 5, 7⟩).1.offset =
      (handlePointerUp dragState ⟨1, 0, 0⟩).offset := by
  obtain ⟨h1, h2, h3, -, -⟩ := pan_end dragState ⟨1, 0, 0⟩ rfl
  exact ⟨h1, h2 rfl, h3 cfg0 ⟨1, 5, 7⟩⟩

/-- C8.  Wheel no-op at bounds: whenever
`clamp (prevScale − deltaY * 0.001) MIN_SCALE MAX_SCALE` equals the previous
scale (e.g. at a bound, or `deltaY = 0`), the wheel handler changes nothing:
the whole state — scale and offset included — is returned unchanged. -/
theorem wheel_noop_at_bound (cfg : Config) (s : GridState) (evt : WheelEvt)
    (h : clamp (s.scale - evt.deltaY * (1 / 1000)) MIN_SCALE MAX_SCALE = s.scale) :
    handleWheel cfg s evt = s := by
  rw [handleWheel_eq, if_pos h]

/-- Witness for C8: a wheel event with `deltaY = 0` in the initial state is
a no-op. -/
theorem wheel_noop_at_bound_witness :
    clamp (initState.scale - 0 * (1 / 1000)) MIN_SCALE MAX_SCALE = initState.scale ∧
    handleWheel cfg0 initState ⟨100, 100, 0⟩ = initState := by
  have hc : clamp (initState.scale - (0 : ℚ) * (1 / 1000)) MIN_SCALE MAX_SCALE =
      initState.scale := by
    norm_num [clamp, initState, MIN_SCALE, MAX_SCALE]
  exact ⟨hc, wheel_noop_at_bound cfg0 initState ⟨100, 100, 0⟩ hc⟩

/-- C9 counterexample.  The claim reads the selection inset as half the
`2/scale` line width — `1/scale` — per side; the code insets by
`(1/scale)*0.5` per side.  At `scale = 1`, `cellSize = 32`, cell `(0,0)`,
the code strokes the rectangle at `x = 0.5` while the claimed geometry puts
it at `x = 1`. -/
theorem selection_outline_counterexample :
    selectionStroke 32 1 ⟨0, 0⟩ ≠ selectionStrokeClaimed 32 1 ⟨0, 0⟩ := by
  intro h
  have hx := congrArg StrokeSpec.x h
  norm_num [selectionStroke, selectionStrokeClaimed] at hx

/-- C9 (amended).  Selection outline geometry: the renderer strokes the
selected cell's rectangle in the accent color `#ff9800` with line width
`2/scale`, inset from the cell rectangle
`[col*cellSize, row*cellSize, cellSize, cellSize]` by a quarter of that
line width — `(1/scale)*0.5` — on each side. -/
theorem selection_outline (cellSize scale : ℚ) (cell : Cell) :
    (selectionStroke cellSize scale cell).color = "#ff9800" ∧
    (selectionStroke cellSize scale cell).lineWidth = 2 / scale ∧
    (selectionStroke cellSize scale cell).x - cell.col * cellSize =
      (selectionStroke cellSize scale cell).lineWidth / 4 ∧
    (selectionStroke cellSize scale cell).y - cell.row * cellSize =
      (selectionStroke cellSize scale cell).lineWidth / 4 ∧
    (cell.col * cellSize + cellSize) -
        ((selectionStroke cellSize scale cell).x + (selectionStroke cellSize scale cell).w) =
      (selectionStroke cellSize scale cell).lineWidth / 4 ∧
    (cell.row * cellSize + cellSize) -
        ((selectionStroke cellSize scale cell).y + (selectionStroke cellSize scale cell).h) =
      (selectionStroke cellSize scale cell).lineWidth / 4 ∧
    (selectionStroke cellSize scale cell).lineWidth / 4 = (1 / scale) * (1 / 2) := by
  refine ⟨rfl, rfl, ?_, ?_, ?_, ?_, ?_⟩ <;> (unfold selectionStroke; ring)

/-- C10.  During an active drag with matching pointer id, the cell a
pointer-move stores as `hoveredCell` and reports to `onHover` is computed
from the offset as it was before that event's own pan update (the handler
closes over the offset of the current render), not from the freshly panned
offset.  Concretely, in `dragState` a move of pointer 1 to `(40, 40)` pans
the offset to `(40, 40)` yet reports cell `(1, 1)` — the hit test at the
stale offset `(0, 0)` — while the hit test at the fresh offset would give
cell `(0, 0)`. -/
theorem hover_uses_stale_offset (cfg : Config) (s : GridState) (evt : PointerEvt)
    (hdrag : s.pan.dragging = true) (hid : s.pan.pointerId = evt.pointerId) :
    ((handlePointerMove cfg s evt).1.hoveredCell =
       getCellFromClientPoint cfg s.offset s.scale evt.clientX evt.clientY) ∧
    ((handlePointerMove cfg s evt).2 =
       hoverArgs (getCellFromClientPoint cfg s.offset s.scale evt.clientX evt.clientY)) ∧
    ((handlePointerMove cfg0 dragState ⟨1, 40, 40⟩).1.offset = ⟨40, 40⟩ ∧
     (handlePointerMove cfg0 dragState ⟨1, 40, 40⟩).1.hoveredCell = some ⟨1, 1⟩ ∧
     getCellFromClientPoint cfg0 (handlePointerMove cfg0 dragState ⟨1, 40, 40⟩).1.offset
        dragState.scale 40 40 = some ⟨0, 0⟩) := by
  refine ⟨by unfold handlePointerMove; simp, by unfold handlePointerMove; simp, ?_, ?_, ?_⟩
  · unfold handlePointerMove dragState initState
    norm_num
  · unfold handlePointerMove dragState initState
    norm_num [getCellFromClientPoint, cfg0]
  · unfold handlePointerMove dragState initState
    norm_num [getCellFromClientPoint, cfg0]

/-- Witness for C10: the stale-offset hover equality at the concrete drag
state. -/
theorem hover_uses_stale_offset_witness :
    (handlePointerMove cfg0 dragState ⟨1, 40, 40⟩).1.hoveredCell =
      getCellFromClientPoint cfg0 dragState.offset dragState.scale 40 40 :=
  (hover_uses_stale_offset cfg0 dragState ⟨1, 40, 40⟩ rfl rfl).1

end MatrixGrid
